import Mathlib

/-!
# cert-manager-webhook-regru: the DNS-01 solver of `main.go`

A shallow embedding of `main.go` (package `main`): the package-level variables
read from the process environment, `main`, and the four methods of
`regruDNSProviderSolver` (`Name`, `Present`, `CleanUp`, `Initialize`).

Go values are embedded as follows.

* A Go `string` is a Lean `String`.
* A Go `error` is `Option GoError`; `none` is `nil`.
* A Go pointer that may be `nil` (`*kubernetes.Clientset`) is an `Option`.
* A method with a pointer receiver is a function on the process state `World`,
  which holds the solver object, the state of the remote registrar and the
  trace of observable effects (log lines, client constructions, registrar calls).
* `getDomainFromZone`, `NewRegruClient`, `createTXT` and `deleteTXT` belong to
  package `main` but are defined outside `main.go`. `Present` and `CleanUp`
  take them as the fields of `Package`; statements about zone resolution itself
  are made on a model written from the specification.
-/

namespace Regru

/-! ## Go errors -/

/-- A Go error value: `errorString` is what `errors.New` and `fmt.Errorf`
without a `%w` verb build, `wrapError` is what `fmt.Errorf` with one `%w` verb
builds (its `Unwrap` method returns the operand). -/
inductive GoError where
  | errorString (s : String)
  | wrapError (msg : String) (err : GoError)
  deriving DecidableEq, Repr

namespace GoError

/-- The `Error()` method: the message text. -/
def Error : GoError → String
  | errorString s => s
  | wrapError msg _ => msg

/-- The `Unwrap()` method; `none` when the value wraps nothing. -/
def Unwrap : GoError → Option GoError
  | errorString _ => none
  | wrapError _ err => some err

/-- The unwrap chain of an error, the value itself first (what `errors.Is`
and `errors.As` walk). -/
def chain : GoError → List GoError
  | errorString s => [errorString s]
  | wrapError msg err => wrapError msg err :: chain err

end GoError

/-- `fmt.Errorf(pfx + "%w", err)`: the message is the text before the verb
followed by `err.Error()`, and the result unwraps to `err`. -/
def Errorf_w (pfx : String) (err : GoError) : GoError :=
  GoError.wrapError (pfx ++ err.Error) err

/-- `fmt.Errorf(pfx + "%v", err)`: the same message text, but the result is
a plain `errorString`; it has no `Unwrap` method. -/
def Errorf_v (pfx : String) (err : GoError) : GoError :=
  GoError.errorString (pfx ++ err.Error)

/-! ## Package-level variables and the process environment -/

/-- `os.Getenv`: the value of the variable, or the empty string when it is
not set. -/
def Getenv (environ : String → Option String) (key : String) : String :=
  (environ key).getD ""

/-- The `var ( ... )` block of `main.go`, lines 15-19. -/
structure Globals where
  GroupName : String
  regruUsername : String
  regruPassword : String
  deriving DecidableEq, Repr

/-- Package initialisation: the three variables are read from the
environment before `main` runs. -/
def loadGlobals (environ : String → Option String) : Globals where
  GroupName := Getenv environ "GROUP_NAME"
  regruUsername := Getenv environ "REGRU_USERNAME"
  regruPassword := Getenv environ "REGRU_PASSWORD"

/-! ## Data model -/

/-- The fields of `v1alpha1.ChallengeRequest` that `main.go` reads. -/
structure ChallengeRequest where
  ResourceNamespace : String
  ResolvedZone : String
  ResolvedFQDN : String
  Key : String
  deriving DecidableEq, Repr

/-- The solver object, `main.go` lines 40-42. The type `κ` stands for
`kubernetes.Clientset`; the field is a pointer and `none` is `nil`. -/
structure regruDNSProviderSolver (κ : Type) where
  client : Option κ
  deriving DecidableEq, Repr

/-- Modelled from the spec: the registrar client handle built by
`NewRegruClient`, which is defined outside `main.go`. Section 4.2: it is
constructed with (username, password, domain) and only stores them. -/
structure RegruClient where
  username : String
  password : String
  zone : String
  deriving DecidableEq, Repr

/-- Modelled from the spec: `NewRegruClient(username, password, zone)`
stores its three parameters and performs no call. -/
def NewRegruClient (username password zone : String) : RegruClient :=
  ⟨username, password, zone⟩

/-- An observable effect of running a method. -/
inductive Event where
  | log (line : String)
  | newClient (client : RegruClient)
  | createTXT (client : RegruClient) (fqdn value : String)
  | deleteTXT (client : RegruClient) (fqdn value : String)
  deriving DecidableEq, Repr

namespace Event

/-- Whether the event is a `createTXT` call. -/
def isCreate : Event → Bool
  | createTXT _ _ _ => true
  | _ => false

/-- Whether the event is a `deleteTXT` call. -/
def isDelete : Event → Bool
  | deleteTXT _ _ _ => true
  | _ => false

/-- Whether the event is the construction of a registrar client. -/
def isNewClient : Event → Bool
  | newClient _ => true
  | _ => false

/-- Whether the event is a call to the registrar. -/
def isRegistrarCall (e : Event) : Bool :=
  e.isCreate || e.isDelete

end Event

/-- The process state a method runs in: the solver object behind the
receiver pointer, the state `σ` of the remote registrar, and the trace of
effects so far, oldest first. -/
structure World (κ σ : Type) where
  solver : regruDNSProviderSolver κ
  registrar : σ
  trace : List Event

namespace World

variable {κ σ : Type}

/-- Append one event to the trace. -/
def emit (w : World κ σ) (e : Event) : World κ σ :=
  { w with trace := w.trace ++ [e] }

end World

/-- The parts of package `main` that `main.go` calls but does not define.
`getDomainFromZone` returns Go's `(string, error)` pair; the two registrar
methods return an `error` and may change the registrar's state. -/
structure Package (σ : Type) where
  getDomainFromZone : String → String → String × Option GoError
  createTXT : RegruClient → String → String → σ → Option GoError × σ
  deleteTXT : RegruClient → String → String → σ → Option GoError × σ

/-! ## Zone resolution, modelled from the specification -/

/-- Trailing-dot normalization of a name given as its characters: one
trailing `.` is removed. -/
def trimDot (s : List Char) : List Char :=
  if s.getLast? = some '.' then s.dropLast else s

/-- The challenge label with its separating dot. -/
def acmeLabel : List Char := "_acme-challenge.".toList

/-- Removal of the `_acme-challenge.` label from the front of a name. -/
def dropAcmeLabel (s : List Char) : List Char :=
  if acmeLabel.isPrefixOf s then s.drop acmeLabel.length else s

/-- The longest common prefix of two names. -/
def commonPrefix : List Char → List Char → List Char
  | a :: as, b :: bs => if a = b then a :: commonPrefix as bs else []
  | _, _ => []

/-- The longest common suffix of two names: what two names share when read
from the root label. -/
def commonSuffix (a b : List Char) : List Char :=
  (commonPrefix a.reverse b.reverse).reverse

/-- The error of a zone that is not a suffix of the record name. -/
def errZoneNotSuffix : GoError :=
  GoError.errorString "zone is not a suffix of the record name"

/-- The error of a pair that leaves no domain. -/
def errNoDomain : GoError :=
  GoError.errorString "no domain can be derived from zone and record name"

/-- Modelled from the spec: `getDomainFromZone`, which package `main` defines
outside `main.go`. Sections 3 and 4.1 of the specification: both names are
normalized by removing the trailing dot; when the normalized zone is not a
suffix of the normalized record name, resolution fails; otherwise the
`_acme-challenge.` label is stripped from the record name and the result is
intersected with the zone (the part the two share from the root), which is a
suffix of the record name and of the zone; when nothing is left, no domain
can be established and resolution fails. The specification fixes no error
text. -/
def getDomainFromZone (ResolvedZone ResolvedFQDN : String) : String × Option GoError :=
  let zone := trimDot ResolvedZone.toList
  let fqdn := trimDot ResolvedFQDN.toList
  if zone <:+ fqdn then
    let domain := commonSuffix (dropAcmeLabel fqdn) zone
    if domain = [] then ("", some errNoDomain) else (String.mk domain, none)
  else
    ("", some errZoneNotSuffix)

/-! ## An in-memory registrar -/

/-- Modelled from the spec: the remote state of the registrar as section 4.2
describes it, the domains of the account and the TXT records held, each a
(name, content) pair. -/
structure Account where
  domains : List String
  records : List (String × String)
  deriving DecidableEq, Repr

/-- The error the in-memory registrar answers for a domain it does not hold. -/
def errDomainNotFound : GoError :=
  GoError.errorString "domain not found"

/-- Modelled from the spec: `createTXT`, section 4.2. Adds the record unless
it is there already; fails when the client's domain is not one of the
account's. -/
def memCreateTXT (c : RegruClient) (fqdn value : String) (s : Account) :
    Option GoError × Account :=
  if c.zone ∈ s.domains then
    (none, if (fqdn, value) ∈ s.records then s
      else { s with records := s.records ++ [(fqdn, value)] })
  else
    (some errDomainNotFound, s)

/-- Modelled from the spec: `deleteTXT`, section 4.2. Removes the records
with this name and this content and no other; fails when the client's domain
is not one of the account's. -/
def memDeleteTXT (c : RegruClient) (fqdn value : String) (s : Account) :
    Option GoError × Account :=
  if c.zone ∈ s.domains then
    (none, { s with records := s.records.filter (fun r => r ≠ (fqdn, value)) })
  else
    (some errDomainNotFound, s)

/-- Package `main` with the modelled zone resolution and the in-memory
registrar. -/
def memPackage : Package Account where
  getDomainFromZone := getDomainFromZone
  createTXT := memCreateTXT
  deleteTXT := memDeleteTXT

/-! ## `main.go` -/

section Methods

variable {κ σ : Type}

/-- `Name`, lines 50-52. Returns the result and the state after the call. -/
def Name (w : World κ σ) : String × World κ σ :=
  ("regru-dns", w)

/-- `Present`, lines 59-76. -/
def Present (g : Globals) (p : Package σ) (ch : ChallengeRequest)
    (w : World κ σ) : Option GoError × World κ σ :=
  let w₁ := w.emit (.log ("Hook Present: namespace=" ++ ch.ResourceNamespace
    ++ ", zone=" ++ ch.ResolvedZone ++ ", fqdn=" ++ ch.ResolvedFQDN
    ++ ", key=" ++ ch.Key))
  match p.getDomainFromZone ch.ResolvedZone ch.ResolvedFQDN with
  | (_, some err) =>
    (some (Errorf_w
      "unable to initialize reg.ru client, because unable to get root zone from domains: "
      err), w₁)
  | (zone, none) =>
    let client := NewRegruClient g.regruUsername g.regruPassword zone
    let w₂ := w₁.emit (.newClient client)
    let w₃ := w₂.emit (.log ("present for entry=" ++ ch.ResolvedFQDN
      ++ ", domain=" ++ zone ++ ", key=" ++ ch.Key))
    let w₄ := w₃.emit (.createTXT client ch.ResolvedFQDN ch.Key)
    match p.createTXT client ch.ResolvedFQDN ch.Key w₄.registrar with
    | (some err, r) =>
      (some (Errorf_v "unable to create TXT record: " err), { w₄ with registrar := r })
    | (none, r) => (none, { w₄ with registrar := r })

/-- `CleanUp`, lines 84-102. -/
def CleanUp (g : Globals) (p : Package σ) (ch : ChallengeRequest)
    (w : World κ σ) : Option GoError × World κ σ :=
  let w₁ := w.emit (.log ("Call function CleanUp: namespace=" ++ ch.ResourceNamespace
    ++ ", zone=" ++ ch.ResolvedZone ++ ", fqdn=" ++ ch.ResolvedFQDN))
  match p.getDomainFromZone ch.ResolvedZone ch.ResolvedFQDN with
  | (_, some err) =>
    (some (Errorf_w
      "unable to initialize reg.ru client, because unable to get root zone from domains: "
      err), w₁)
  | (zone, none) =>
    let client := NewRegruClient g.regruUsername g.regruPassword zone
    let w₂ := w₁.emit (.newClient client)
    let w₃ := w₂.emit (.log ("delete entry=" ++ ch.ResolvedFQDN
      ++ ", domain=" ++ zone ++ ", key=" ++ ch.Key))
    let w₄ := w₃.emit (.deleteTXT client ch.ResolvedFQDN ch.Key)
    match p.deleteTXT client ch.ResolvedFQDN ch.Key w₄.registrar with
    | (some err, r) =>
      (some (Errorf_v "unable to delete TXT record: " err), { w₄ with registrar := r })
    | (none, r) => (none, { w₄ with registrar := r })

/-- `Initialize`, lines 113-125. `NewForConfig` stands for
`kubernetes.NewForConfig`, which returns Go's `(*Clientset, error)` pair;
`γ` is `rest.Config` and `χ` the type of the stop channel. -/
def Initialize {γ χ : Type} (NewForConfig : γ → Option κ × Option GoError)
    (kubeClientConfig : γ) (_stopCh : χ) (w : World κ σ) :
    Option GoError × World κ σ :=
  let w₁ := w.emit (.log "Call function Initialize")
  match NewForConfig kubeClientConfig with
  | (_, some err) => (some err, w₁.emit (.log "Initialize error"))
  | (cl, none) => (none, { w₁ with solver := { w₁.solver with client := cl } })

/-- How `main` ends: it panics, or it hands control to
`cmd.RunWebhookServer` with a group name and the registered solvers. -/
inductive Outcome (κ : Type) where
  | goPanic (msg : String)
  | RunWebhookServer (groupName : String) (solvers : List (regruDNSProviderSolver κ))
  deriving DecidableEq, Repr

/-- `main`, lines 21-34. -/
def main (g : Globals) : Outcome κ :=
  if g.GroupName = "" then
    .goPanic "GROUP_NAME must be specified"
  else
    .RunWebhookServer g.GroupName [{ client := none }]

end Methods

/-! ## Reading a trace -/

section Traces

variable {κ σ : Type}

/-- The events a run from `before` to `after` added to the trace. -/
def eventsSince (before after : World κ σ) : List Event :=
  after.trace.drop before.trace.length

/-- The registrar calls a run from `before` to `after` made, in order. -/
def registrarCalls (before after : World κ σ) : List Event :=
  (eventsSince before after).filter Event.isRegistrarCall

/-- The registrar clients a run from `before` to `after` constructed. -/
def clientsBuilt (before after : World κ σ) : List Event :=
  (eventsSince before after).filter Event.isNewClient

end Traces

/-! ## Concrete inputs -/

/-- Credentials of the running process. -/
def demoGlobals : Globals where
  GroupName := "acme.example.org"
  regruUsername := "user"
  regruPassword := "secret"

/-- The request of the specification's concrete scenario. -/
def demoRequest : ChallengeRequest where
  ResourceNamespace := "default"
  ResolvedZone := "example.com."
  ResolvedFQDN := "_acme-challenge.sub.example.com."
  Key := "abc123"

/-- A process that has produced no effect yet, with an account holding
`example.com`. -/
def demoWorld : World Unit Account where
  solver := { client := none }
  registrar := { domains := ["example.com"], records := [] }
  trace := []

/-- The same process with an account that holds no domain, so that every
registrar call fails. -/
def emptyWorld : World Unit Account where
  solver := { client := none }
  registrar := { domains := [], records := [] }
  trace := []

/-- The scenario's request with the key `k1`. -/
def requestK1 : ChallengeRequest :=
  { demoRequest with Key := "k1" }

/-- The scenario's request with the key `k2`, for the same record name. -/
def requestK2 : ChallengeRequest :=
  { demoRequest with Key := "k2" }

/-- A request whose zone is not a suffix of its record name. -/
def foreignRequest : ChallengeRequest where
  ResourceNamespace := "default"
  ResolvedZone := "example.org."
  ResolvedFQDN := "_acme-challenge.sub.example.com."
  Key := "abc123"

/-- A `kubernetes.NewForConfig` that accepts a configuration, given as the
host it names, exactly when the host is not empty. -/
def demoNewForConfig (host : String) : Option Unit × Option GoError :=
  if host = "" then (none, some (GoError.errorString "invalid configuration: no host"))
  else (some (), none)

/-- A process environment that sets the three variables. -/
def demoEnviron (key : String) : Option String :=
  if key = "GROUP_NAME" then some "acme.example.org"
  else if key = "REGRU_USERNAME" then some "user"
  else if key = "REGRU_PASSWORD" then some "secret"
  else none

/-- A process environment that sets no variable. -/
def emptyEnviron (_key : String) : Option String :=
  none

/-! ## Unfolding `Present` and `CleanUp` -/

section Unfolding

variable {κ σ : Type}

theorem eventsSince_of_trace (w w' : World κ σ) (es : List Event)
    (h : w'.trace = w.trace ++ es) : eventsSince w w' = es := by
  simp [eventsSince, h]

theorem Present_of_zone_error (g : Globals) (p : Package σ) (ch : ChallengeRequest)
    (w : World κ σ) (s : String) (e : GoError)
    (h : p.getDomainFromZone ch.ResolvedZone ch.ResolvedFQDN = (s, some e)) :
    Present g p ch w =
      (some (Errorf_w
        "unable to initialize reg.ru client, because unable to get root zone from domains: " e),
       w.emit (.log ("Hook Present: namespace=" ++ ch.ResourceNamespace
        ++ ", zone=" ++ ch.ResolvedZone ++ ", fqdn=" ++ ch.ResolvedFQDN
        ++ ", key=" ++ ch.Key))) := by
  simp only [Present, h]

theorem CleanUp_of_zone_error (g : Globals) (p : Package σ) (ch : ChallengeRequest)
    (w : World κ σ) (s : String) (e : GoError)
    (h : p.getDomainFromZone ch.ResolvedZone ch.ResolvedFQDN = (s, some e)) :
    CleanUp g p ch w =
      (some (Errorf_w
        "unable to initialize reg.ru client, because unable to get root zone from domains: " e),
       w.emit (.log ("Call function CleanUp: namespace=" ++ ch.ResourceNamespace
        ++ ", zone=" ++ ch.ResolvedZone ++ ", fqdn=" ++ ch.ResolvedFQDN))) := by
  simp only [CleanUp, h]

theorem Present_trace_of_zone_ok (g : Globals) (p : Package σ) (ch : ChallengeRequest)
    (w : World κ σ) (z : String)
    (h : p.getDomainFromZone ch.ResolvedZone ch.ResolvedFQDN = (z, none)) :
    (Present g p ch w).2.trace = w.trace ++
      [.log ("Hook Present: namespace=" ++ ch.ResourceNamespace
        ++ ", zone=" ++ ch.ResolvedZone ++ ", fqdn=" ++ ch.ResolvedFQDN
        ++ ", key=" ++ ch.Key),
       .newClient (NewRegruClient g.regruUsername g.regruPassword z),
       .log ("present for entry=" ++ ch.ResolvedFQDN ++ ", domain=" ++ z
        ++ ", key=" ++ ch.Key),
       .createTXT (NewRegruClient g.regruUsername g.regruPassword z)
        ch.ResolvedFQDN ch.Key] := by
  simp only [Present, h]
  split <;> simp [World.emit]

theorem CleanUp_trace_of_zone_ok (g : Globals) (p : Package σ) (ch : ChallengeRequest)
    (w : World κ σ) (z : String)
    (h : p.getDomainFromZone ch.ResolvedZone ch.ResolvedFQDN = (z, none)) :
    (CleanUp g p ch w).2.trace = w.trace ++
      [.log ("Call function CleanUp: namespace=" ++ ch.ResourceNamespace
        ++ ", zone=" ++ ch.ResolvedZone ++ ", fqdn=" ++ ch.ResolvedFQDN),
       .newClient (NewRegruClient g.regruUsername g.regruPassword z),
       .log ("delete entry=" ++ ch.ResolvedFQDN ++ ", domain=" ++ z
        ++ ", key=" ++ ch.Key),
       .deleteTXT (NewRegruClient g.regruUsername g.regruPassword z)
        ch.ResolvedFQDN ch.Key] := by
  simp only [CleanUp, h]
  split <;> simp [World.emit]

theorem Present_result_of_zone_ok (g : Globals) (p : Package σ) (ch : ChallengeRequest)
    (w : World κ σ) (z : String)
    (h : p.getDomainFromZone ch.ResolvedZone ch.ResolvedFQDN = (z, none)) :
    (Present g p ch w).1 =
      (p.createTXT (NewRegruClient g.regruUsername g.regruPassword z)
        ch.ResolvedFQDN ch.Key w.registrar).1.map
        (Errorf_v "unable to create TXT record: ") ∧
    (Present g p ch w).2.registrar =
      (p.createTXT (NewRegruClient g.regruUsername g.regruPassword z)
        ch.ResolvedFQDN ch.Key w.registrar).2 := by
  simp only [Present, h]
  split <;> rename_i heq <;> simp [World.emit] at heq ⊢ <;> simp [heq]

theorem CleanUp_result_of_zone_ok (g : Globals) (p : Package σ) (ch : ChallengeRequest)
    (w : World κ σ) (z : String)
    (h : p.getDomainFromZone ch.ResolvedZone ch.ResolvedFQDN = (z, none)) :
    (CleanUp g p ch w).1 =
      (p.deleteTXT (NewRegruClient g.regruUsername g.regruPassword z)
        ch.ResolvedFQDN ch.Key w.registrar).1.map
        (Errorf_v "unable to delete TXT record: ") ∧
    (CleanUp g p ch w).2.registrar =
      (p.deleteTXT (NewRegruClient g.regruUsername g.regruPassword z)
        ch.ResolvedFQDN ch.Key w.registrar).2 := by
  simp only [CleanUp, h]
  split <;> rename_i heq <;> simp [World.emit] at heq ⊢ <;> simp [heq]

/-- A failed zone resolution, read as a pair. -/
theorem zone_error_cases (r : String × Option GoError) (h : r.2 ≠ none) :
    ∃ s e, r = (s, some e) := by
  obtain ⟨s, o⟩ := r
  cases o with
  | none => exact absurd rfl h
  | some e => exact ⟨s, e, rfl⟩

end Unfolding

/-! ## Lemmas on names -/

theorem commonPrefix_isPrefix_left (a b : List Char) : commonPrefix a b <+: a := by
  induction a generalizing b with
  | nil => simp [commonPrefix]
  | cons x xs ih =>
    cases b with
    | nil => simp [commonPrefix]
    | cons y ys =>
      by_cases hxy : x = y
      · subst hxy
        simpa [commonPrefix, List.cons_prefix_cons] using ih ys
      · simp [commonPrefix, hxy]

theorem commonPrefix_isPrefix_right (a b : List Char) : commonPrefix a b <+: b := by
  induction a generalizing b with
  | nil => simp [commonPrefix]
  | cons x xs ih =>
    cases b with
    | nil => simp [commonPrefix]
    | cons y ys =>
      by_cases hxy : x = y
      · subst hxy
        simpa [commonPrefix, List.cons_prefix_cons] using ih ys
      · simp [commonPrefix, hxy]

theorem commonSuffix_isSuffix_left (a b : List Char) : commonSuffix a b <:+ a := by
  have h := commonPrefix_isPrefix_left a.reverse b.reverse
  rw [← List.reverse_suffix] at h
  simpa [commonSuffix] using h

theorem commonSuffix_isSuffix_right (a b : List Char) : commonSuffix a b <:+ b := by
  have h := commonPrefix_isPrefix_right a.reverse b.reverse
  rw [← List.reverse_suffix] at h
  simpa [commonSuffix] using h

theorem dropAcmeLabel_isSuffix (s : List Char) : dropAcmeLabel s <:+ s := by
  unfold dropAcmeLabel
  split
  · exact List.drop_suffix _ _
  · exact List.suffix_refl _

theorem trimDot_append_dot (s : List Char) : trimDot (s ++ ['.']) = s := by
  simp [trimDot]

theorem string_ne_empty_of_data (l : List Char) (h : l ≠ []) : String.mk l ≠ "" := by
  intro hc
  apply h
  have := congrArg String.data hc
  simpa using this

theorem getDomainFromZone_ok_iff (zone fqdn d : String) :
    getDomainFromZone zone fqdn = (d, none) ↔
      trimDot zone.toList <:+ trimDot fqdn.toList ∧
      commonSuffix (dropAcmeLabel (trimDot fqdn.toList)) (trimDot zone.toList) ≠ [] ∧
      d = String.mk (commonSuffix (dropAcmeLabel (trimDot fqdn.toList)) (trimDot zone.toList)) := by
  simp only [getDomainFromZone]
  by_cases hs : trimDot zone.toList <:+ trimDot fqdn.toList
  · by_cases hd : commonSuffix (dropAcmeLabel (trimDot fqdn.toList)) (trimDot zone.toList) = []
    · rw [if_pos hs, if_pos hd]
      constructor
      · intro h
        exact absurd (congrArg Prod.snd h) (by simp)
      · rintro ⟨-, h, -⟩
        exact absurd hd h
    · rw [if_pos hs, if_neg hd]
      constructor
      · intro h
        exact ⟨hs, hd, (congrArg Prod.fst h).symm⟩
      · rintro ⟨-, -, rfl⟩
        rfl
  · rw [if_neg hs]
    constructor
    · intro h
      exact absurd (congrArg Prod.snd h) (by simp)
    · rintro ⟨h, -⟩
      exact absurd h hs

/-- Whenever the modelled resolution succeeds, neither the normalized zone nor
the record name without its label is empty, and the domain is a non-empty
suffix of the normalized record name and of the normalized zone. -/
theorem getDomainFromZone_ok_invariant (zone fqdn d : String)
    (h : getDomainFromZone zone fqdn = (d, none)) :
    trimDot zone.toList ≠ [] ∧ dropAcmeLabel (trimDot fqdn.toList) ≠ [] ∧ d ≠ "" ∧
    d.toList <:+ trimDot fqdn.toList ∧ d.toList <:+ trimDot zone.toList := by
  obtain ⟨-, hne, rfl⟩ := (getDomainFromZone_ok_iff zone fqdn d).1 h
  have hl := commonSuffix_isSuffix_left
    (dropAcmeLabel (trimDot fqdn.toList)) (trimDot zone.toList)
  have hr := commonSuffix_isSuffix_right
    (dropAcmeLabel (trimDot fqdn.toList)) (trimDot zone.toList)
  refine ⟨?_, ?_, string_ne_empty_of_data _ hne,
    hl.trans (dropAcmeLabel_isSuffix _), hr⟩
  · intro hz
    exact hne (List.suffix_nil.mp (hz ▸ hr))
  · intro hh
    exact hne (List.suffix_nil.mp (hh ▸ hl))

/-- The root zone `.` has the empty name: no non-empty domain is a suffix of
it, the relationship section 3 of the specification asks of the domain and
the zone, and the modelled resolution yields no domain under it. -/
theorem root_zone_has_no_domain :
    (∀ d : String, d.toList <:+ trimDot ".".toList → d = "") ∧
    (getDomainFromZone "." "_acme-challenge.example.com.").2 ≠ none := by
  refine ⟨?_, by decide⟩
  intro d hd
  have hnil : trimDot ".".toList = [] := by decide
  rw [hnil] at hd
  exact String.ext (List.suffix_nil.mp hd)

/-- For dot-terminated names the normalized zone is a suffix of the
normalized record name exactly when the zone is a suffix of the record name
as written. -/
theorem suffix_iff_of_dot_terminated (z f : List Char) :
    trimDot (z ++ ['.']) <:+ trimDot (f ++ ['.']) ↔ z ++ ['.'] <:+ f ++ ['.'] := by
  rw [trimDot_append_dot, trimDot_append_dot]
  constructor
  · rintro ⟨t, rfl⟩
    exact ⟨t, by simp⟩
  · rintro ⟨t, ht⟩
    refine ⟨t, ?_⟩
    have : (t ++ z) ++ ['.'] = f ++ ['.'] := by simpa using ht
    exact List.append_cancel_right this

/-! ## Lemmas on wrapped errors -/

section Wrapping

variable {κ σ : Type}

/-- An error built with `%v` has no `Unwrap` method and its chain holds only
itself; with a non-empty text before the verb, the cause is not in the chain. -/
theorem Errorf_v_hides_cause (pfx : String) (e : GoError) (hp : pfx ≠ "") :
    (Errorf_v pfx e).Unwrap = none ∧ e ∉ (Errorf_v pfx e).chain := by
  refine ⟨rfl, ?_⟩
  intro hm
  have he : e = GoError.errorString (pfx ++ e.Error) := by
    simpa [Errorf_v, GoError.chain] using hm
  have hlen := congrArg (fun x => x.Error.length) he
  simp only [GoError.Error, String.length_append] at hlen
  have h0 : pfx.length = 0 := by omega
  exact hp (String.ext (List.length_eq_zero.mp h0))

/-- An error built with `%w` unwraps to its cause. -/
theorem Errorf_w_wraps_cause (pfx : String) (e : GoError) :
    (Errorf_w pfx e).Unwrap = some e ∧ e ∈ (Errorf_w pfx e).chain := by
  refine ⟨rfl, ?_⟩
  cases e <;> simp [Errorf_w, GoError.chain]

/-- Whatever the registrar and the request, the error `Present` returns for a
failed `createTXT` does not have the cause in its unwrap chain. -/
theorem Present_registrar_error_chain (g : Globals) (p : Package σ) (ch : ChallengeRequest)
    (w : World κ σ) (z : String) (e : GoError)
    (h : p.getDomainFromZone ch.ResolvedZone ch.ResolvedFQDN = (z, none))
    (hc : (p.createTXT (NewRegruClient g.regruUsername g.regruPassword z)
      ch.ResolvedFQDN ch.Key w.registrar).1 = some e) :
    (Present g p ch w).1 = some (Errorf_v "unable to create TXT record: " e) ∧
    (Errorf_v "unable to create TXT record: " e).Unwrap = none ∧
    e ∉ (Errorf_v "unable to create TXT record: " e).chain := by
  refine ⟨?_, Errorf_v_hides_cause _ e (by decide)⟩
  rw [(Present_result_of_zone_ok g p ch w z h).1, hc]
  rfl

/-- Whatever the registrar and the request, the error `CleanUp` returns for a
failed `deleteTXT` does not have the cause in its unwrap chain. -/
theorem CleanUp_registrar_error_chain (g : Globals) (p : Package σ) (ch : ChallengeRequest)
    (w : World κ σ) (z : String) (e : GoError)
    (h : p.getDomainFromZone ch.ResolvedZone ch.ResolvedFQDN = (z, none))
    (hc : (p.deleteTXT (NewRegruClient g.regruUsername g.regruPassword z)
      ch.ResolvedFQDN ch.Key w.registrar).1 = some e) :
    (CleanUp g p ch w).1 = some (Errorf_v "unable to delete TXT record: " e) ∧
    (Errorf_v "unable to delete TXT record: " e).Unwrap = none ∧
    e ∉ (Errorf_v "unable to delete TXT record: " e).chain := by
  refine ⟨?_, Errorf_v_hides_cause _ e (by decide)⟩
  rw [(CleanUp_result_of_zone_ok g p ch w z h).1, hc]
  rfl

/-- The errors of the registrar-call step name the operation: for one cause
`Present` and `CleanUp` return errors with different messages. -/
theorem registrar_step_errors_differ (e : GoError) :
    Errorf_v "unable to create TXT record: " e ≠ Errorf_v "unable to delete TXT record: " e := by
  intro h
  have hd : ("unable to create TXT record: " ++ e.Error).data
      = ("unable to delete TXT record: " ++ e.Error).data := by
    simp only [Errorf_v, GoError.errorString.injEq] at h
    rw [h]
  simp only [String.data_append] at hd
  have h10 := congrArg (fun l => l.get? 10) hd
  revert h10
  simp

end Wrapping

/-! ## The claims -/

section Claims

variable {κ σ : Type}

/-- C1: when `getDomainFromZone(ResolvedZone, ResolvedFQDN)` fails, `Present`
returns a non-nil error, makes no registrar call and constructs no registrar
client, leaves the registrar's state as it was, and its outcome does not
depend on `createTXT` or `deleteTXT`. -/
theorem Present_zone_failure (g : Globals) (p : Package σ) (ch : ChallengeRequest)
    (w : World κ σ)
    (h : (p.getDomainFromZone ch.ResolvedZone ch.ResolvedFQDN).2 ≠ none) :
    (Present g p ch w).1 ≠ none ∧
    registrarCalls w (Present g p ch w).2 = [] ∧
    clientsBuilt w (Present g p ch w).2 = [] ∧
    (Present g p ch w).2.registrar = w.registrar ∧
    ∀ c d : RegruClient → String → String → σ → Option GoError × σ,
      Present g { p with createTXT := c, deleteTXT := d } ch w = Present g p ch w := by
  obtain ⟨s, e, he⟩ := zone_error_cases _ h
  refine ⟨?_, ?_, ?_, ?_, ?_⟩
  · simp [Present_of_zone_error g p ch w s e he]
  · simp [registrarCalls, eventsSince, Present_of_zone_error g p ch w s e he, World.emit,
      Event.isRegistrarCall, Event.isCreate, Event.isDelete]
  · simp [clientsBuilt, eventsSince, Present_of_zone_error g p ch w s e he, World.emit,
      Event.isNewClient]
  · simp [Present_of_zone_error g p ch w s e he, World.emit]
  · intro c d
    exact (Present_of_zone_error g { p with createTXT := c, deleteTXT := d } ch w s e he).trans
      (Present_of_zone_error g p ch w s e he).symm

/-- Witness of C1: a request whose zone `example.org.` is not a suffix of its
record name. -/
theorem Present_zone_failure_witness :
    (memPackage.getDomainFromZone foreignRequest.ResolvedZone
      foreignRequest.ResolvedFQDN).2 ≠ none ∧
    (Present demoGlobals memPackage foreignRequest demoWorld).1 ≠ none ∧
    registrarCalls demoWorld (Present demoGlobals memPackage foreignRequest demoWorld).2 = [] ∧
    clientsBuilt demoWorld (Present demoGlobals memPackage foreignRequest demoWorld).2 = [] ∧
    (Present demoGlobals memPackage foreignRequest demoWorld).2.registrar
      = demoWorld.registrar ∧
    ∀ c d : RegruClient → String → String → Account → Option GoError × Account,
      Present demoGlobals { memPackage with createTXT := c, deleteTXT := d }
        foreignRequest demoWorld
      = Present demoGlobals memPackage foreignRequest demoWorld :=
  ⟨by decide, Present_zone_failure demoGlobals memPackage foreignRequest demoWorld (by decide)⟩

/-- C2: when zone resolution succeeds with domain `z`, the one registrar call
`Present` makes is `createTXT(ResolvedFQDN, Key)` on the client built from
`(regruUsername, regruPassword, z)`, the one client it builds; the registrar
is left in the state that call produces; and `Present` returns nil exactly
when that call returns no error. -/
theorem Present_zone_success (g : Globals) (p : Package σ) (ch : ChallengeRequest)
    (w : World κ σ) (z : String)
    (h : p.getDomainFromZone ch.ResolvedZone ch.ResolvedFQDN = (z, none)) :
    registrarCalls w (Present g p ch w).2 =
      [Event.createTXT (NewRegruClient g.regruUsername g.regruPassword z)
        ch.ResolvedFQDN ch.Key] ∧
    clientsBuilt w (Present g p ch w).2 =
      [Event.newClient (NewRegruClient g.regruUsername g.regruPassword z)] ∧
    (Present g p ch w).2.registrar =
      (p.createTXT (NewRegruClient g.regruUsername g.regruPassword z)
        ch.ResolvedFQDN ch.Key w.registrar).2 ∧
    ((Present g p ch w).1 = none ↔
      (p.createTXT (NewRegruClient g.regruUsername g.regruPassword z)
        ch.ResolvedFQDN ch.Key w.registrar).1 = none) := by
  have ht := eventsSince_of_trace w _ _ (Present_trace_of_zone_ok g p ch w z h)
  obtain ⟨hr, hs⟩ := Present_result_of_zone_ok g p ch w z h
  refine ⟨?_, ?_, hs, ?_⟩
  · simp [registrarCalls, ht, Event.isRegistrarCall, Event.isCreate, Event.isDelete]
  · simp [clientsBuilt, ht, Event.isNewClient]
  · rw [hr]; simp

/-- Witness of C2: the specification's scenario, zone `example.com.`, record
name `_acme-challenge.sub.example.com.`, key `abc123`. -/
theorem Present_zone_success_witness :
    memPackage.getDomainFromZone demoRequest.ResolvedZone demoRequest.ResolvedFQDN
      = ("example.com", none) ∧
    registrarCalls demoWorld (Present demoGlobals memPackage demoRequest demoWorld).2 =
      [Event.createTXT (NewRegruClient "user" "secret" "example.com")
        "_acme-challenge.sub.example.com." "abc123"] ∧
    clientsBuilt demoWorld (Present demoGlobals memPackage demoRequest demoWorld).2 =
      [Event.newClient (NewRegruClient "user" "secret" "example.com")] ∧
    (Present demoGlobals memPackage demoRequest demoWorld).2.registrar =
      (memPackage.createTXT (NewRegruClient "user" "secret" "example.com")
        "_acme-challenge.sub.example.com." "abc123" demoWorld.registrar).2 ∧
    ((Present demoGlobals memPackage demoRequest demoWorld).1 = none ↔
      (memPackage.createTXT (NewRegruClient "user" "secret" "example.com")
        "_acme-challenge.sub.example.com." "abc123" demoWorld.registrar).1 = none) :=
  ⟨by decide, Present_zone_success demoGlobals memPackage demoRequest demoWorld
    "example.com" (by decide)⟩

/-- C3: when zone resolution succeeds with domain `z`, the one registrar call
`CleanUp` makes is `deleteTXT(ResolvedFQDN, Key)`: every `deleteTXT` it issues
carries the request's record name and the request's own key, it issues no
`createTXT`, the registrar is left in the state that call produces, and
`CleanUp` returns nil exactly when that call returns no error. -/
theorem CleanUp_zone_success (g : Globals) (p : Package σ) (ch : ChallengeRequest)
    (w : World κ σ) (z : String)
    (h : p.getDomainFromZone ch.ResolvedZone ch.ResolvedFQDN = (z, none)) :
    registrarCalls w (CleanUp g p ch w).2 =
      [Event.deleteTXT (NewRegruClient g.regruUsername g.regruPassword z)
        ch.ResolvedFQDN ch.Key] ∧
    (∀ c f v, Event.deleteTXT c f v ∈ eventsSince w (CleanUp g p ch w).2 →
      f = ch.ResolvedFQDN ∧ v = ch.Key) ∧
    (∀ ev ∈ eventsSince w (CleanUp g p ch w).2, ev.isCreate = false) ∧
    (CleanUp g p ch w).2.registrar =
      (p.deleteTXT (NewRegruClient g.regruUsername g.regruPassword z)
        ch.ResolvedFQDN ch.Key w.registrar).2 ∧
    ((CleanUp g p ch w).1 = none ↔
      (p.deleteTXT (NewRegruClient g.regruUsername g.regruPassword z)
        ch.ResolvedFQDN ch.Key w.registrar).1 = none) := by
  have ht := eventsSince_of_trace w _ _ (CleanUp_trace_of_zone_ok g p ch w z h)
  obtain ⟨hr, hs⟩ := CleanUp_result_of_zone_ok g p ch w z h
  refine ⟨?_, ?_, ?_, hs, ?_⟩
  · simp [registrarCalls, ht, Event.isRegistrarCall, Event.isCreate, Event.isDelete]
  · intro c f v hm
    rw [ht] at hm
    simp at hm
    exact ⟨hm.2.1, hm.2.2⟩
  · intro ev hm
    rw [ht] at hm
    simp at hm
    rcases hm with rfl | rfl | rfl | rfl <;> rfl
  · rw [hr]; simp

/-- Witness of C3: two requests for one record name, with the keys `k1` and
`k2`; the call made for `k1` names `k1`, the call made for `k2` names `k2`. -/
theorem CleanUp_zone_success_witness :
    memPackage.getDomainFromZone requestK1.ResolvedZone requestK1.ResolvedFQDN
      = ("example.com", none) ∧
    (registrarCalls demoWorld (CleanUp demoGlobals memPackage requestK1 demoWorld).2 =
      [Event.deleteTXT (NewRegruClient "user" "secret" "example.com")
        "_acme-challenge.sub.example.com." "k1"] ∧
    (∀ c f v, Event.deleteTXT c f v ∈ eventsSince demoWorld
        (CleanUp demoGlobals memPackage requestK1 demoWorld).2 →
      f = "_acme-challenge.sub.example.com." ∧ v = "k1") ∧
    (∀ ev ∈ eventsSince demoWorld (CleanUp demoGlobals memPackage requestK1 demoWorld).2,
      ev.isCreate = false) ∧
    (CleanUp demoGlobals memPackage requestK1 demoWorld).2.registrar =
      (memPackage.deleteTXT (NewRegruClient "user" "secret" "example.com")
        "_acme-challenge.sub.example.com." "k1" demoWorld.registrar).2 ∧
    ((CleanUp demoGlobals memPackage requestK1 demoWorld).1 = none ↔
      (memPackage.deleteTXT (NewRegruClient "user" "secret" "example.com")
        "_acme-challenge.sub.example.com." "k1" demoWorld.registrar).1 = none)) ∧
    registrarCalls demoWorld (CleanUp demoGlobals memPackage requestK2 demoWorld).2 =
      [Event.deleteTXT (NewRegruClient "user" "secret" "example.com")
        "_acme-challenge.sub.example.com." "k2"] :=
  ⟨by decide,
   CleanUp_zone_success demoGlobals memPackage requestK1 demoWorld "example.com" (by decide),
   (CleanUp_zone_success demoGlobals memPackage requestK2 demoWorld "example.com"
      (by decide)).1⟩

/-- C4: `CleanUp` consults `getDomainFromZone` at the same arguments as
`Present` (only its value at `(ResolvedZone, ResolvedFQDN)` matters to
either), builds the same registrar client from
`(regruUsername, regruPassword, zone)`, and when zone resolution fails with
cause `e` returns the very error `Present` returns: the same message, wrapping
the same cause `e`. -/
theorem CleanUp_same_steps_as_Present (g : Globals) (p : Package σ)
    (ch : ChallengeRequest) (w : World κ σ) :
    (∀ f : String → String → String × Option GoError,
      f ch.ResolvedZone ch.ResolvedFQDN = p.getDomainFromZone ch.ResolvedZone ch.ResolvedFQDN →
      CleanUp g { p with getDomainFromZone := f } ch w = CleanUp g p ch w ∧
      Present g { p with getDomainFromZone := f } ch w = Present g p ch w) ∧
    clientsBuilt w (CleanUp g p ch w).2 = clientsBuilt w (Present g p ch w).2 ∧
    (∀ z, p.getDomainFromZone ch.ResolvedZone ch.ResolvedFQDN = (z, none) →
      clientsBuilt w (CleanUp g p ch w).2 =
        [Event.newClient (NewRegruClient g.regruUsername g.regruPassword z)]) ∧
    (∀ s e, p.getDomainFromZone ch.ResolvedZone ch.ResolvedFQDN = (s, some e) →
      (CleanUp g p ch w).1 = (Present g p ch w).1 ∧
      (CleanUp g p ch w).1 = some (GoError.wrapError
        ("unable to initialize reg.ru client, because unable to get root zone from domains: "
          ++ e.Error) e)) := by
  have hok : ∀ z, p.getDomainFromZone ch.ResolvedZone ch.ResolvedFQDN = (z, none) →
      clientsBuilt w (CleanUp g p ch w).2 =
        [Event.newClient (NewRegruClient g.regruUsername g.regruPassword z)] ∧
      clientsBuilt w (Present g p ch w).2 =
        [Event.newClient (NewRegruClient g.regruUsername g.regruPassword z)] := by
    intro z hz
    have hc := eventsSince_of_trace w _ _ (CleanUp_trace_of_zone_ok g p ch w z hz)
    have hp := eventsSince_of_trace w _ _ (Present_trace_of_zone_ok g p ch w z hz)
    constructor
    · simp [clientsBuilt, hc, Event.isNewClient]
    · simp [clientsBuilt, hp, Event.isNewClient]
  refine ⟨?_, ?_, fun z hz => (hok z hz).1, ?_⟩
  · intro f hf
    constructor
    · simp only [CleanUp, hf]
    · simp only [Present, hf]
  · rcases hr : p.getDomainFromZone ch.ResolvedZone ch.ResolvedFQDN with ⟨z, _ | e⟩
    · rw [(hok z hr).1, (hok z hr).2]
    · simp [clientsBuilt, eventsSince, CleanUp_of_zone_error g p ch w z e hr,
        Present_of_zone_error g p ch w z e hr, World.emit, Event.isNewClient]
  · intro s e he
    simp [CleanUp_of_zone_error g p ch w s e he, Present_of_zone_error g p ch w s e he,
      Errorf_w]

/-- Witness of C4: a failed and a successful zone resolution. -/
theorem CleanUp_same_steps_as_Present_witness :
    (CleanUp demoGlobals memPackage foreignRequest demoWorld).1
      = (Present demoGlobals memPackage foreignRequest demoWorld).1 ∧
    (CleanUp demoGlobals memPackage foreignRequest demoWorld).1 = some (GoError.wrapError
      ("unable to initialize reg.ru client, because unable to get root zone from domains: "
        ++ errZoneNotSuffix.Error) errZoneNotSuffix) ∧
    clientsBuilt demoWorld (CleanUp demoGlobals memPackage demoRequest demoWorld).2
      = clientsBuilt demoWorld (Present demoGlobals memPackage demoRequest demoWorld).2 ∧
    clientsBuilt demoWorld (CleanUp demoGlobals memPackage demoRequest demoWorld).2
      = [Event.newClient (NewRegruClient "user" "secret" "example.com")] :=
  ⟨((CleanUp_same_steps_as_Present demoGlobals memPackage foreignRequest demoWorld).2.2.2
      "" errZoneNotSuffix (by decide)).1,
   ((CleanUp_same_steps_as_Present demoGlobals memPackage foreignRequest demoWorld).2.2.2
      "" errZoneNotSuffix (by decide)).2,
   (CleanUp_same_steps_as_Present demoGlobals memPackage demoRequest demoWorld).2.1,
   (CleanUp_same_steps_as_Present demoGlobals memPackage demoRequest demoWorld).2.2.1
      "example.com" (by decide)⟩

/-- C5, evaluated: on an account without the domain both registrar calls fail
with `errDomainNotFound`; the errors `Present` and `CleanUp` return carry its
text in their message but unwrap to nothing, and the cause is not in their
chain, while the error of a failed zone resolution unwraps to its cause. -/
theorem registrar_error_not_wrapped :
    (memPackage.createTXT (NewRegruClient "user" "secret" "example.com")
      "_acme-challenge.sub.example.com." "abc123" emptyWorld.registrar).1
      = some errDomainNotFound ∧
    (memPackage.deleteTXT (NewRegruClient "user" "secret" "example.com")
      "_acme-challenge.sub.example.com." "abc123" emptyWorld.registrar).1
      = some errDomainNotFound ∧
    (Present demoGlobals memPackage demoRequest emptyWorld).1 =
      some (GoError.errorString "unable to create TXT record: domain not found") ∧
    (CleanUp demoGlobals memPackage demoRequest emptyWorld).1 =
      some (GoError.errorString "unable to delete TXT record: domain not found") ∧
    (GoError.errorString "unable to create TXT record: domain not found").Unwrap = none ∧
    (GoError.errorString "unable to delete TXT record: domain not found").Unwrap = none ∧
    errDomainNotFound ∉
      (GoError.errorString "unable to create TXT record: domain not found").chain ∧
    errDomainNotFound ∉
      (GoError.errorString "unable to delete TXT record: domain not found").chain ∧
    (Present demoGlobals memPackage foreignRequest emptyWorld).1.bind GoError.Unwrap
      = some errZoneNotSuffix := by
  decide

/-- C7: when the normalized zone is not a suffix of the normalized record
name, zone resolution fails, with an error fixed by that fact alone, and
`Present` and `CleanUp` running on it return an error that wraps it and make
no registrar call. -/
theorem getDomainFromZone_not_suffix (g : Globals)
    (c d : RegruClient → String → String → σ → Option GoError × σ)
    (ch : ChallengeRequest) (w : World κ σ)
    (h : ¬ trimDot ch.ResolvedZone.toList <:+ trimDot ch.ResolvedFQDN.toList) :
    getDomainFromZone ch.ResolvedZone ch.ResolvedFQDN = ("", some errZoneNotSuffix) ∧
    (Present g ⟨getDomainFromZone, c, d⟩ ch w).1 = some (Errorf_w
      "unable to initialize reg.ru client, because unable to get root zone from domains: "
      errZoneNotSuffix) ∧
    registrarCalls w (Present g ⟨getDomainFromZone, c, d⟩ ch w).2 = [] ∧
    (CleanUp g ⟨getDomainFromZone, c, d⟩ ch w).1 = some (Errorf_w
      "unable to initialize reg.ru client, because unable to get root zone from domains: "
      errZoneNotSuffix) ∧
    registrarCalls w (CleanUp g ⟨getDomainFromZone, c, d⟩ ch w).2 = [] := by
  have hz : getDomainFromZone ch.ResolvedZone ch.ResolvedFQDN = ("", some errZoneNotSuffix) := by
    simp only [getDomainFromZone]
    rw [if_neg h]
  have hp := Present_of_zone_error g ⟨getDomainFromZone, c, d⟩ ch w "" errZoneNotSuffix hz
  have hc := CleanUp_of_zone_error g ⟨getDomainFromZone, c, d⟩ ch w "" errZoneNotSuffix hz
  refine ⟨hz, ?_, ?_, ?_, ?_⟩
  · rw [hp]
  · simp [hp, registrarCalls, eventsSince, World.emit, Event.isRegistrarCall,
      Event.isCreate, Event.isDelete]
  · rw [hc]
  · simp [hc, registrarCalls, eventsSince, World.emit, Event.isRegistrarCall,
      Event.isCreate, Event.isDelete]

/-- Witness of C7: the zone `example.org.` under the record name
`_acme-challenge.sub.example.com.`. -/
theorem getDomainFromZone_not_suffix_witness :
    (¬ trimDot foreignRequest.ResolvedZone.toList
        <:+ trimDot foreignRequest.ResolvedFQDN.toList) ∧
    getDomainFromZone foreignRequest.ResolvedZone foreignRequest.ResolvedFQDN
      = ("", some errZoneNotSuffix) ∧
    (Present demoGlobals ⟨getDomainFromZone, memCreateTXT, memDeleteTXT⟩
      foreignRequest demoWorld).1 = some (Errorf_w
      "unable to initialize reg.ru client, because unable to get root zone from domains: "
      errZoneNotSuffix) ∧
    registrarCalls demoWorld (Present demoGlobals
      ⟨getDomainFromZone, memCreateTXT, memDeleteTXT⟩ foreignRequest demoWorld).2 = [] ∧
    (CleanUp demoGlobals ⟨getDomainFromZone, memCreateTXT, memDeleteTXT⟩
      foreignRequest demoWorld).1 = some (Errorf_w
      "unable to initialize reg.ru client, because unable to get root zone from domains: "
      errZoneNotSuffix) ∧
    registrarCalls demoWorld (CleanUp demoGlobals
      ⟨getDomainFromZone, memCreateTXT, memDeleteTXT⟩ foreignRequest demoWorld).2 = [] :=
  ⟨by decide, getDomainFromZone_not_suffix demoGlobals memCreateTXT memDeleteTXT
    foreignRequest demoWorld (by decide)⟩

/-- C8: `Name` returns `"regru-dns"` in every state of the process, whatever
the solver's client handle, and leaves the state as it was. -/
theorem Name_fixed (w : World κ σ) :
    (Name w).1 = "regru-dns" ∧ (Name w).2 = w :=
  ⟨rfl, rfl⟩

/-- C9: when `GROUP_NAME` is unset or empty, `main` panics with
`"GROUP_NAME must be specified"` and the webhook server is not started; when
it is not empty, `main` runs the webhook server with that group name and one
fresh `regruDNSProviderSolver`. -/
theorem main_requires_group_name (environ : String → Option String) :
    (environ "GROUP_NAME" = none →
      (main (loadGlobals environ) : Outcome κ) = .goPanic "GROUP_NAME must be specified") ∧
    (Getenv environ "GROUP_NAME" = "" →
      (main (loadGlobals environ) : Outcome κ) = .goPanic "GROUP_NAME must be specified") ∧
    (Getenv environ "GROUP_NAME" ≠ "" →
      (main (loadGlobals environ) : Outcome κ) =
        .RunWebhookServer (Getenv environ "GROUP_NAME") [{ client := none }]) := by
  refine ⟨?_, ?_, ?_⟩
  · intro h
    simp [main, loadGlobals, Getenv, h]
  · intro h
    simp [main, loadGlobals, h]
  · intro h
    simp [main, loadGlobals, h]

/-- Witness of C9: an environment without `GROUP_NAME` and one with it. -/
theorem main_requires_group_name_witness :
    (main (loadGlobals emptyEnviron) : Outcome Unit)
      = .goPanic "GROUP_NAME must be specified" ∧
    (main (loadGlobals demoEnviron) : Outcome Unit)
      = .RunWebhookServer "acme.example.org" [{ client := none }] :=
  ⟨(main_requires_group_name emptyEnviron).1 rfl,
   (main_requires_group_name demoEnviron).2.2 (by decide)⟩

/-- C10: `Initialize` returns an error exactly when `kubernetes.NewForConfig`
does, and then that very error with the solver unchanged; otherwise it
returns nil and the solver holds the client just built. The stop channel does
not affect the outcome. -/
theorem Initialize_result {γ χ : Type} (NewForConfig : γ → Option κ × Option GoError)
    (kubeClientConfig : γ) (stopCh : χ) (w : World κ σ) :
    ((Initialize NewForConfig kubeClientConfig stopCh w).1 ≠ none ↔
      (NewForConfig kubeClientConfig).2 ≠ none) ∧
    (∀ e, (NewForConfig kubeClientConfig).2 = some e →
      (Initialize NewForConfig kubeClientConfig stopCh w).1 = some e ∧
      (Initialize NewForConfig kubeClientConfig stopCh w).2.solver = w.solver) ∧
    ((NewForConfig kubeClientConfig).2 = none →
      (Initialize NewForConfig kubeClientConfig stopCh w).1 = none ∧
      (Initialize NewForConfig kubeClientConfig stopCh w).2.solver.client
        = (NewForConfig kubeClientConfig).1) ∧
    (∀ stopCh' : χ, Initialize NewForConfig kubeClientConfig stopCh' w
      = Initialize NewForConfig kubeClientConfig stopCh w) := by
  rcases hr : NewForConfig kubeClientConfig with ⟨cl, _ | e⟩ <;>
    simp [Initialize, hr, World.emit]

/-- Witness of C10: a configuration that is refused and one that is accepted. -/
theorem Initialize_result_witness :
    (Initialize demoNewForConfig "" () demoWorld).1
      = some (GoError.errorString "invalid configuration: no host") ∧
    (Initialize demoNewForConfig "" () demoWorld).2.solver = demoWorld.solver ∧
    (Initialize demoNewForConfig "https://10.0.0.1" () demoWorld).1 = none ∧
    (Initialize demoNewForConfig "https://10.0.0.1" () demoWorld).2.solver.client
      = some () :=
  ⟨((Initialize_result demoNewForConfig "" () demoWorld).2.1 _ rfl).1,
   ((Initialize_result demoNewForConfig "" () demoWorld).2.1 _ rfl).2,
   ((Initialize_result demoNewForConfig "https://10.0.0.1" () demoWorld).2.2.1 rfl).1,
   ((Initialize_result demoNewForConfig "https://10.0.0.1" () demoWorld).2.2.1 rfl).2⟩

end Claims

end Regru
